import Mathlib

/-!
Verification of the core logic of the `vscode-barcode-generator` extension
(`src/extension.js`): the barcode-type classifier with its EAN13 check-digit
computation and validation, and the PDF page-fitting computation inlined in
`exportPdfFromPngDataUrl`.

Strings are modelled by Lean `String`; every input the claims touch is a
sequence of ASCII characters, where JS UTF-16 semantics and Lean codepoint
semantics agree.  JS number arithmetic on page geometry is modelled over `ℚ`;
`fitScale` records explicitly the one place where IEEE-754 division by zero
occurs in the source.
-/

namespace BarcodeGenerator

/-- Models the regex test `/^\d{n}$/.test(s)` from `resolveBarcodeType`:
the string consists of exactly `n` ASCII digits. -/
def digitsExactly (n : Nat) (s : String) : Bool :=
  s.data.length == n && s.data.all Char.isDigit

/-- Models `Number(ch)` for a single character, as used in
`computeEan13CheckDigit` and `isValidEan13`.  Both call sites only apply it
to ASCII digit characters (guaranteed by the `/^\d{12}$/` and `/^\d{13}$/`
guards), where `Number` yields the digit value `c - 48`. -/
def charToDigit (c : Char) : Nat :=
  c.toNat - 48

/-- The accumulation loop of `computeEan13CheckDigit`:
`sum += i % 2 === 0 ? digit : digit * 3` over the characters, with `i` the
running index. -/
def ean13WeightedSum : Nat → List Char → Nat
  | _, [] => 0
  | i, c :: rest =>
      (if i % 2 = 0 then charToDigit c else charToDigit c * 3) +
        ean13WeightedSum (i + 1) rest

/-- The function `computeEan13CheckDigit(base12)` from `src/extension.js`: weighted sum of
the digits (weight 1 at even index, 3 at odd index), then
`mod === 0 ? 0 : 10 - mod`. -/
def computeEan13CheckDigit (base12 : String) : Nat :=
  let sum := ean13WeightedSum 0 base12.data
  let mod := sum % 10
  if mod = 0 then 0 else 10 - mod

/-- Models `s.slice(0, n)` for JS strings. -/
def jsSlice (s : String) (n : Nat) : String :=
  ⟨s.data.take n⟩

/-- Models `s[i]` for JS strings.  Out-of-range access yields `undefined` in
JS; every call site in the source indexes position 12 of a string the regex
guard has proved to have 13 characters, so the default is never produced. -/
def jsCharAt (s : String) (i : Nat) : Char :=
  s.data.getD i (Char.ofNat 0)

/-- The function `isValidEan13(full13)` from `src/extension.js`:
`Number(full13[12]) === computeEan13CheckDigit(full13.slice(0, 12))`. -/
def isValidEan13 (full13 : String) : Bool :=
  charToDigit (jsCharAt full13 12) == computeEan13CheckDigit (jsSlice full13 12)

/-- The two quick-pick items offered by `resolveBarcodeType` when the input is
not EAN13 numeric: `{ label: 'Code 128', type: 'code128' }` and
`{ label: 'QR Code', type: 'qrcode' }`. -/
inductive Pick where
  | code128
  | qrcode
deriving DecidableEq, Repr

/-- The `type` field of a quick-pick item. -/
def pickType : Pick → String
  | .code128 => "code128"
  | .qrcode => "qrcode"

/-- The `label` field of a quick-pick item. -/
def pickLabel : Pick → String
  | .code128 => "Code 128"
  | .qrcode => "QR Code"

/-- The `{ type, value, label }` object returned by `resolveBarcodeType`. -/
structure BarcodeDecision where
  type : String
  value : String
  label : String
deriving DecidableEq, Repr

/-- The three-way branch structure of `resolveBarcodeType` before any UI
effect is performed: the 12-digit branch completes the value with the check
digit, the 13-digit branch validates and either keeps the value or rejects it
(`showErrorMessage` + `return null` in the source), and every other string
falls through to the quick-pick (the ambiguous case). -/
inductive Classified where
  | ean13Decision (value : String)
  | invalidChecksum
  | ambiguous (value : String)
deriving DecidableEq, Repr

/-- The pure classification performed by `resolveBarcodeType` in
`src/extension.js`, branch for branch:
`/^\d{12}$/` → EAN13 with `` `${value}${computeEan13CheckDigit(value)}` ``;
`/^\d{13}$/` → EAN13 unchanged when `isValidEan13`, otherwise the
invalid-checksum rejection; anything else is ambiguous. -/
def classifyValue (value : String) : Classified :=
  if digitsExactly 12 value then
    .ean13Decision (value ++ toString (computeEan13CheckDigit value))
  else if digitsExactly 13 value then
    if isValidEan13 value then .ean13Decision value else .invalidChecksum
  else .ambiguous value

/-- The function `resolveBarcodeType(value)` from `src/extension.js`, with the result of
the `showQuickPick` UI call passed in as the explicit argument `picked`
(`none` models a dismissed picker).  The EAN13 branches return
`{ type: 'ean13', value, label: 'EAN13' }`, the invalid-checksum branch
returns `null`, and the ambiguous branch returns `null` on a dismissed picker
and otherwise `{ type: picked.type, value, label: picked.label }`. -/
def resolveBarcodeType (value : String) (picked : Option Pick) :
    Option BarcodeDecision :=
  match classifyValue value with
  | .ean13Decision v => some ⟨"ean13", v, "EAN13"⟩
  | .invalidChecksum => none
  | .ambiguous v =>
      match picked with
      | none => none
      | some p => some ⟨pickType p, v, pickLabel p⟩

example : classifyValue "012345678905" = .ean13Decision "0123456789050" := by
  decide

example : resolveBarcodeType "012345678905" none =
    some ⟨"ean13", "0123456789050", "EAN13"⟩ := by
  decide

example : classifyValue "0123456789050" = .ean13Decision "0123456789050" := by
  decide

example : classifyValue "0123456789051" = .invalidChecksum := by decide

example : classifyValue "40063813339" = .ambiguous "40063813339" := by decide

example : computeEan13CheckDigit "400638133393" = 1 := by decide

/-! ### The PDF page-fitting computation

`exportPdfFromPngDataUrl` in `src/extension.js` computes, with the constants
`a4Width = 595.28`, `a4Height = 841.89`, `margin = 36`:

    const maxWidth = a4Width - margin * 2;
    const maxHeight = a4Height - margin * 2;
    const scale = Math.min(maxWidth / pngImage.width, maxHeight / pngImage.height, 1);
    const drawWidth = pngImage.width * scale;
    const drawHeight = pngImage.height * scale;
    const x = (a4Width - drawWidth) / 2;
    const y = (a4Height - drawHeight) / 2;

JS numbers are modelled over `ℚ`.  The only place where the model has to
reproduce IEEE-754 behaviour explicitly is the division by a zero source
dimension inside `Math.min`: in JS, `positive / 0` is `+Infinity`, which can
never attain the minimum because of the final `1` operand, so the infinite
ratio simply drops out of the `min`.  `fitScale` spells this out; it is
faithful to the source expression whenever `maxW > 0` and `maxH > 0`, which
holds at the only call site (`maxW = 523.28`, `maxH = 769.89`). -/

/-- The expression `Math.min(maxW / w, maxH / h, 1)` under JS division semantics (with
`maxW, maxH > 0`): a ratio with a zero denominator is `+Infinity` and drops
out of the minimum. -/
def fitScale (maxW maxH w h : ℚ) : ℚ :=
  if w = 0 then
    if h = 0 then 1 else min (maxH / h) 1
  else if h = 0 then
    min (maxW / w) 1
  else
    min (maxW / w) (min (maxH / h) 1)

/-- The draw geometry handed to `page.drawImage`. -/
structure PageLayout where
  x : ℚ
  y : ℚ
  drawWidth : ℚ
  drawHeight : ℚ
deriving DecidableEq, Repr

/-- The page-fitting computation of `exportPdfFromPngDataUrl`, with the page
size and margin as parameters (the source fixes them to A4 portrait and 36;
see `a4Width`, `a4Height`, `pdfMargin`). -/
def fit (pageWidth pageHeight margin sourceWidth sourceHeight : ℚ) :
    PageLayout :=
  let maxWidth := pageWidth - margin * 2
  let maxHeight := pageHeight - margin * 2
  let scale := fitScale maxWidth maxHeight sourceWidth sourceHeight
  let drawWidth := sourceWidth * scale
  let drawHeight := sourceHeight * scale
  ⟨(pageWidth - drawWidth) / 2, (pageHeight - drawHeight) / 2,
    drawWidth, drawHeight⟩

/-- The constant `a4Width = 595.28`. -/
def a4Width : ℚ := 595.28

/-- The constant `a4Height = 841.89`. -/
def a4Height : ℚ := 841.89

/-- The constant `margin = 36`. -/
def pdfMargin : ℚ := 36

example : fit a4Width a4Height pdfMargin 640 180 =
    ⟨36, 347.35875, 523.28, 147.1725⟩ := by
  simp only [fit, fitScale, a4Width, a4Height, pdfMargin, PageLayout.mk.injEq]
  norm_num [min_def]

example : fit a4Width a4Height pdfMargin 100 50 =
    ⟨247.64, 395.945, 100, 50⟩ := by
  simp only [fit, fitScale, a4Width, a4Height, pdfMargin, PageLayout.mk.injEq]
  norm_num [min_def]

example : fit a4Width a4Height pdfMargin 0 180 =
    ⟨297.64, 330.945, 0, 180⟩ := by
  simp only [fit, fitScale, a4Width, a4Height, pdfMargin, PageLayout.mk.injEq]
  norm_num [min_def]

example : ¬ |(fit a4Width a4Height pdfMargin 640 180).drawHeight -
    (147.17 : ℚ)| ≤ 1 / 1000 := by
  simp only [fit, fitScale, a4Width, a4Height, pdfMargin]
  norm_num [min_def, abs_le]

/-! ### Helper lemmas about the classifier -/

lemma digitsExactly_iff {n : Nat} {s : String} :
    digitsExactly n s = true ↔
      s.data.length = n ∧ ∀ c ∈ s.data, c.isDigit = true := by
  simp [digitsExactly, List.all_eq_true]

lemma toString_digit_data {c : Nat} (hc : c ≤ 9) :
    (toString c).data = [Char.ofNat (48 + c)] := by
  interval_cases c <;> decide

lemma charToDigit_digitChar {c : Nat} (hc : c ≤ 9) :
    charToDigit (Char.ofNat (48 + c)) = c := by
  interval_cases c <;> decide

lemma isDigit_digitChar {c : Nat} (hc : c ≤ 9) :
    (Char.ofNat (48 + c)).isDigit = true := by
  interval_cases c <;> decide

lemma computeEan13CheckDigit_le_nine (s : String) :
    computeEan13CheckDigit s ≤ 9 := by
  simp only [computeEan13CheckDigit]
  split <;> omega

lemma getD_append_length (l : List Char) (c d : Char) :
    (l ++ [c]).getD l.length d = c := by
  induction l with
  | nil => rfl
  | cons a t ih => simp [ih]

lemma data_append_digit (d : String) {c : Nat} (hc : c ≤ 9) :
    (d ++ toString c).data = d.data ++ [Char.ofNat (48 + c)] := by
  rw [String.data_append, toString_digit_data hc]

lemma digitsExactly13_append_digit {d : String}
    (hd : digitsExactly 12 d = true) {c : Nat} (hc : c ≤ 9) :
    digitsExactly 13 (d ++ toString c) = true := by
  rcases digitsExactly_iff.mp hd with ⟨hlen, hdig⟩
  refine digitsExactly_iff.mpr ⟨?_, ?_⟩
  · rw [data_append_digit d hc, List.length_append, hlen]
    rfl
  · intro ch hch
    rw [data_append_digit d hc] at hch
    rcases List.mem_append.mp hch with h | h
    · exact hdig ch h
    · rw [List.mem_singleton.mp h]
      exact isDigit_digitChar hc

lemma jsSlice_append_digit {d : String} (hd : d.data.length = 12)
    {c : Nat} (hc : c ≤ 9) : jsSlice (d ++ toString c) 12 = d := by
  simp only [jsSlice]
  rw [data_append_digit d hc, ← hd, List.take_left]

lemma jsCharAt_append_digit {d : String} (hd : d.data.length = 12)
    {c : Nat} (hc : c ≤ 9) :
    jsCharAt (d ++ toString c) 12 = Char.ofNat (48 + c) := by
  simp only [jsCharAt]
  rw [data_append_digit d hc, ← hd, getD_append_length]

lemma isValidEan13_append_digit {d : String}
    (hd : digitsExactly 12 d = true) {c : Nat} (hc : c ≤ 9) :
    isValidEan13 (d ++ toString c) = true ↔ c = computeEan13CheckDigit d := by
  have hlen := (digitsExactly_iff.mp hd).1
  simp only [isValidEan13, jsCharAt_append_digit hlen hc,
    jsSlice_append_digit hlen hc, charToDigit_digitChar hc, beq_iff_eq]

lemma isValidEan13_completed {d : String} (hd : digitsExactly 12 d = true) :
    isValidEan13 (d ++ toString (computeEan13CheckDigit d)) = true :=
  (isValidEan13_append_digit hd (computeEan13CheckDigit_le_nine d)).mpr rfl

lemma not_digitsExactly_both (s : String) :
    ¬(digitsExactly 12 s = true ∧ digitsExactly 13 s = true) := by
  rintro ⟨h1, h2⟩
  have e1 := (digitsExactly_iff.mp h1).1
  have e2 := (digitsExactly_iff.mp h2).1
  omega

lemma classifyValue_completed {d : String} (hd : digitsExactly 12 d = true) :
    classifyValue (d ++ toString (computeEan13CheckDigit d)) =
      .ean13Decision (d ++ toString (computeEan13CheckDigit d)) := by
  have h13 :=
    digitsExactly13_append_digit hd (computeEan13CheckDigit_le_nine d)
  have h12 : digitsExactly 12 (d ++ toString (computeEan13CheckDigit d)) =
      false := by
    rw [Bool.eq_false_iff]
    intro h
    exact not_digitsExactly_both _ ⟨h, h13⟩
  simp [classifyValue, h12, h13, isValidEan13_completed hd]

/-! ### The check-digit formula as the spec words it -/

/-- Modelled from the spec's wording of the checksum algorithm, for
comparison with the source's `computeEan13CheckDigit`:
`sum = Σ over i in [0,12): digit[i] * (i is even ? 1 : 3)` and
`checkDigit = (sum % 10 == 0) ? 0 : (10 - sum % 10)`. -/
def specCheckDigit (s : String) : Nat :=
  let sum := ∑ i ∈ Finset.range 12,
    charToDigit (jsCharAt s i) * (if i % 2 = 0 then 1 else 3)
  if sum % 10 = 0 then 0 else 10 - sum % 10

lemma ean13WeightedSum_eq_sum (l : List Char) :
    ∀ k, ean13WeightedSum k l =
      ∑ i ∈ Finset.range l.length,
        charToDigit (l.getD i (Char.ofNat 0)) *
          (if (k + i) % 2 = 0 then 1 else 3) := by
  induction l with
  | nil =>
    intro k
    simp [ean13WeightedSum]
  | cons c t ih =>
    intro k
    rw [List.length_cons, Finset.sum_range_succ']
    have hsum : (∑ i ∈ Finset.range t.length,
          charToDigit ((c :: t).getD (i + 1) (Char.ofNat 0)) *
            (if (k + (i + 1)) % 2 = 0 then 1 else 3)) =
        ∑ i ∈ Finset.range t.length,
          charToDigit (t.getD i (Char.ofNat 0)) *
            (if ((k + 1) + i) % 2 = 0 then 1 else 3) := by
      refine Finset.sum_congr rfl fun i _ => ?_
      rw [List.getD_cons_succ, show k + (i + 1) = (k + 1) + i from by omega]
    rw [hsum, ← ih (k + 1)]
    simp only [ean13WeightedSum, List.getD_cons_zero, Nat.add_zero]
    by_cases hk : k % 2 = 0 <;> simp [hk] <;> ring

lemma specCheckDigit_eq {s : String} (hs : digitsExactly 12 s = true) :
    specCheckDigit s = computeEan13CheckDigit s := by
  have hlen := (digitsExactly_iff.mp hs).1
  simp only [specCheckDigit, computeEan13CheckDigit, jsCharAt,
    ean13WeightedSum_eq_sum s.data 0, hlen, Nat.zero_add]

/-! ### Claim theorems for the classifier -/

/-- Claim C1: for every input string of exactly 12 ASCII digits, the
classifier returns the EAN13 decision whose value is the input with the
check digit appended, where the check digit is computed by the spec's
weighted modulo-10 formula (`specCheckDigit`); this case never fails
(it succeeds whatever the quick-pick state is); in particular
`"012345678905"` yields an EAN13 decision with value `"0123456789050"`. -/
theorem resolveBarcodeType_twelve_digits (s : String)
    (h : digitsExactly 12 s = true) (picked : Option Pick) :
    resolveBarcodeType s picked =
      some ⟨"ean13", s ++ toString (specCheckDigit s), "EAN13"⟩ ∧
    resolveBarcodeType "012345678905" none =
      some ⟨"ean13", "0123456789050", "EAN13"⟩ := by
  constructor
  · rw [specCheckDigit_eq h]
    simp [resolveBarcodeType, classifyValue, h]
  · decide

/-- Witness for C1 at the concrete input `"012345678905"`. -/
theorem resolveBarcodeType_twelve_digits_witness :
    resolveBarcodeType "012345678905" none =
      some ⟨"ean13", "012345678905" ++ toString (specCheckDigit "012345678905"),
        "EAN13"⟩ :=
  (resolveBarcodeType_twelve_digits "012345678905" (by decide) none).1

/-- Claim C2: for every input string of exactly 13 ASCII digits, the
classifier recomputes the expected check digit from the first 12 digits;
if it differs from the 13th digit the result is the invalid-checksum
rejection (`null`, whatever the quick-pick state is — no fallback encoding),
and otherwise the EAN13 decision with the value unchanged. -/
theorem resolveBarcodeType_thirteen_digits (s : String)
    (h : digitsExactly 13 s = true) :
    (charToDigit (jsCharAt s 12) ≠ computeEan13CheckDigit (jsSlice s 12) →
      classifyValue s = .invalidChecksum ∧
      ∀ picked, resolveBarcodeType s picked = none) ∧
    (charToDigit (jsCharAt s 12) = computeEan13CheckDigit (jsSlice s 12) →
      ∀ picked, resolveBarcodeType s picked = some ⟨"ean13", s, "EAN13"⟩) := by
  have h12 : digitsExactly 12 s = false := by
    rw [Bool.eq_false_iff]
    intro h12
    exact not_digitsExactly_both s ⟨h12, h⟩
  constructor
  · intro hne
    have hv : isValidEan13 s = false := by
      rw [Bool.eq_false_iff]
      intro hv
      simp only [isValidEan13] at hv
      exact hne (beq_iff_eq.mp hv)
    constructor
    · simp [classifyValue, h12, h, hv]
    · intro picked
      simp [resolveBarcodeType, classifyValue, h12, h, hv]
  · intro heq picked
    have hv : isValidEan13 s = true := by
      simp only [isValidEan13]
      exact beq_iff_eq.mpr heq
    simp [resolveBarcodeType, classifyValue, h12, h, hv]

/-- Witness for C2: `"0123456789051"` (wrong check digit) is rejected, and
`"0123456789050"` (correct check digit) passes through unchanged. -/
theorem resolveBarcodeType_thirteen_digits_witness :
    resolveBarcodeType "0123456789051" none = none ∧
    resolveBarcodeType "0123456789050" none =
      some ⟨"ean13", "0123456789050", "EAN13"⟩ :=
  ⟨((resolveBarcodeType_thirteen_digits "0123456789051" (by decide)).1
      (by decide)).2 none,
    (resolveBarcodeType_thirteen_digits "0123456789050" (by decide)).2
      (by decide) none⟩

/-- Claim C3: every input string that is not exactly 12 or exactly 13 ASCII
digits is classified as ambiguous — never as an invalid-checksum rejection
and never as an EAN13 decision; the value carried is the original input,
untouched (the caller's pick determines the decision, and a dismissed picker
yields `null`); and no string satisfies both digit guards, so every string
lands in exactly one of the three branches. -/
theorem resolveBarcodeType_other_strings (s : String)
    (h12 : digitsExactly 12 s = false) (h13 : digitsExactly 13 s = false) :
    classifyValue s = .ambiguous s ∧
    resolveBarcodeType s none = none ∧
    (∀ p : Pick, resolveBarcodeType s (some p) =
        some ⟨pickType p, s, pickLabel p⟩ ∧ pickType p ≠ "ean13") ∧
    ∀ t : String, ¬(digitsExactly 12 t = true ∧ digitsExactly 13 t = true) := by
  have hcl : classifyValue s = .ambiguous s := by
    simp [classifyValue, h12, h13]
  refine ⟨hcl, ?_, ?_, not_digitsExactly_both⟩
  · simp [resolveBarcodeType, hcl]
  · intro p
    refine ⟨by simp [resolveBarcodeType, hcl], ?_⟩
    cases p <;> decide

/-- Witness for C3 at the 11-digit input `"40063813339"`. -/
theorem resolveBarcodeType_other_strings_witness :
    classifyValue "40063813339" = .ambiguous "40063813339" ∧
    resolveBarcodeType "40063813339" (some .code128) =
      some ⟨pickType .code128, "40063813339", pickLabel .code128⟩ ∧
    pickType Pick.code128 ≠ "ean13" := by
  have h := resolveBarcodeType_other_strings "40063813339" (by decide) (by decide)
  exact ⟨h.1, (h.2.2.1 .code128).1, (h.2.2.1 .code128).2⟩

/-- Claim C4: classifying a 12-digit string yields an EAN13 decision with a
13-digit value, and classifying that produced value again returns the very
same decision unchanged (the appended check digit always passes the 13-digit
validation). -/
theorem resolveBarcodeType_roundtrip (d : String)
    (h : digitsExactly 12 d = true) (p q : Option Pick) :
    ∃ dec : BarcodeDecision,
      resolveBarcodeType d p = some dec ∧ dec.type = "ean13" ∧
      digitsExactly 13 dec.value = true ∧
      resolveBarcodeType dec.value q = some dec := by
  refine ⟨⟨"ean13", d ++ toString (computeEan13CheckDigit d), "EAN13"⟩,
    ?_, rfl, ?_, ?_⟩
  · simp [resolveBarcodeType, classifyValue, h]
  · exact digitsExactly13_append_digit h (computeEan13CheckDigit_le_nine d)
  · simp [resolveBarcodeType, classifyValue_completed h]

/-- Witness for C4 at the concrete input `"012345678905"`. -/
theorem resolveBarcodeType_roundtrip_witness :
    ∃ dec : BarcodeDecision,
      resolveBarcodeType "012345678905" none = some dec ∧
      dec.type = "ean13" ∧ digitsExactly 13 dec.value = true ∧
      resolveBarcodeType dec.value none = some dec :=
  resolveBarcodeType_roundtrip "012345678905" (by decide) none none

/-- Claim C5: every decision the classifier produces with `type = "ean13"`
(by either the 12-digit or the 13-digit branch) has a value of exactly 13
ASCII digits whose 13th digit equals the check digit computed from the first
12 digits by the weighted modulo-10 algorithm. -/
theorem ean13_decision_invariant (s : String) (p : Option Pick)
    (dec : BarcodeDecision) (hdec : resolveBarcodeType s p = some dec)
    (hty : dec.type = "ean13") :
    digitsExactly 13 dec.value = true ∧
    charToDigit (jsCharAt dec.value 12) =
      computeEan13CheckDigit (jsSlice dec.value 12) := by
  by_cases h12 : digitsExactly 12 s = true
  · simp [resolveBarcodeType, classifyValue, h12] at hdec
    rcases hdec with rfl
    refine ⟨digitsExactly13_append_digit h12 (computeEan13CheckDigit_le_nine s),
      ?_⟩
    have hv := isValidEan13_completed h12
    simp only [isValidEan13] at hv
    exact beq_iff_eq.mp hv
  · by_cases h13 : digitsExactly 13 s = true
    · by_cases hv : isValidEan13 s = true
      · simp [resolveBarcodeType, classifyValue, h12, h13, hv] at hdec
        rcases hdec with rfl
        refine ⟨h13, ?_⟩
        simp only [isValidEan13] at hv
        exact beq_iff_eq.mp hv
      · simp [resolveBarcodeType, classifyValue, h12, h13, hv] at hdec
    · rcases p with _ | pk
      · simp [resolveBarcodeType, classifyValue, h12, h13] at hdec
      · simp [resolveBarcodeType, classifyValue, h12, h13] at hdec
        rcases hdec with rfl
        cases pk <;> dsimp only [pickType] at hty <;>
          exact absurd hty (by decide)

/-- Witness for C5 at the valid 13-digit input `"0123456789050"`. -/
theorem ean13_decision_invariant_witness :
    digitsExactly 13 (BarcodeDecision.mk "ean13" "0123456789050" "EAN13").value
      = true ∧
    charToDigit (jsCharAt
        (BarcodeDecision.mk "ean13" "0123456789050" "EAN13").value 12) =
      computeEan13CheckDigit (jsSlice
        (BarcodeDecision.mk "ean13" "0123456789050" "EAN13").value 12) :=
  ean13_decision_invariant "0123456789050" none
    ⟨"ean13", "0123456789050", "EAN13"⟩ (by decide) rfl

/-- Claim C10: for every 12-digit string, the computed check digit is in the
range 0..9 (so the completed EAN13 value has exactly 13 characters), and it
is the unique digit `c` in 0..9 for which `isValidEan13` accepts the string
obtained by appending `c`. -/
theorem checkDigit_range_unique (d : String)
    (h : digitsExactly 12 d = true) :
    computeEan13CheckDigit d ≤ 9 ∧
    (d ++ toString (computeEan13CheckDigit d)).data.length = 13 ∧
    ∀ c : Nat, c ≤ 9 →
      (isValidEan13 (d ++ toString c) = true ↔
        c = computeEan13CheckDigit d) := by
  refine ⟨computeEan13CheckDigit_le_nine d, ?_,
    fun c hc => isValidEan13_append_digit h hc⟩
  exact (digitsExactly_iff.mp
    (digitsExactly13_append_digit h (computeEan13CheckDigit_le_nine d))).1

/-- Witness for C10 at the concrete input `"012345678905"` and the candidate
digit 0. -/
theorem checkDigit_range_unique_witness :
    computeEan13CheckDigit "012345678905" ≤ 9 ∧
    ("012345678905" ++
      toString (computeEan13CheckDigit "012345678905")).data.length = 13 ∧
    (isValidEan13 ("012345678905" ++ toString (0 : Nat)) = true ↔
      (0 : Nat) = computeEan13CheckDigit "012345678905") := by
  obtain ⟨h1, h2, h3⟩ := checkDigit_range_unique "012345678905" (by decide)
  exact ⟨h1, h2, h3 0 (by decide)⟩

/-! ### Helper lemmas and claim theorems for the page fitter -/

lemma fit_pos_eq (pw ph m w h : ℚ) (hw : w ≠ 0) (hh : h ≠ 0) :
    fit pw ph m w h =
      ⟨(pw - w * min ((pw - m * 2) / w) (min ((ph - m * 2) / h) 1)) / 2,
        (ph - h * min ((pw - m * 2) / w) (min ((ph - m * 2) / h) 1)) / 2,
        w * min ((pw - m * 2) / w) (min ((ph - m * 2) / h) 1),
        h * min ((pw - m * 2) / w) (min ((ph - m * 2) / h) 1)⟩ := by
  simp [fit, fitScale, hw, hh]

lemma a4_maxWidth : a4Width - pdfMargin * 2 = 523.28 := by
  norm_num [a4Width, pdfMargin]

lemma a4_maxHeight : a4Height - pdfMargin * 2 = 769.89 := by
  norm_num [a4Height, pdfMargin]

lemma fitScale_a4_pos {w h : ℚ} (hw : 0 < w) (hh : 0 < h) :
    0 < min ((a4Width - pdfMargin * 2) / w)
        (min ((a4Height - pdfMargin * 2) / h) 1) := by
  refine lt_min (div_pos ?_ hw) (lt_min (div_pos ?_ hh) one_pos)
  · rw [a4_maxWidth]
    norm_num
  · rw [a4_maxHeight]
    norm_num

lemma fitScale_a4_drawWidth_le {w h : ℚ} (hw : 0 < w) :
    w * min ((a4Width - pdfMargin * 2) / w)
        (min ((a4Height - pdfMargin * 2) / h) 1) ≤ 523.28 := by
  calc w * min ((a4Width - pdfMargin * 2) / w)
        (min ((a4Height - pdfMargin * 2) / h) 1) ≤
      w * ((a4Width - pdfMargin * 2) / w) :=
        mul_le_mul_of_nonneg_left (min_le_left _ _) hw.le
    _ = a4Width - pdfMargin * 2 := by field_simp
    _ = 523.28 := a4_maxWidth

lemma fitScale_a4_drawHeight_le {w h : ℚ} (hh : 0 < h) :
    h * min ((a4Width - pdfMargin * 2) / w)
        (min ((a4Height - pdfMargin * 2) / h) 1) ≤ 769.89 := by
  calc h * min ((a4Width - pdfMargin * 2) / w)
        (min ((a4Height - pdfMargin * 2) / h) 1) ≤
      h * ((a4Height - pdfMargin * 2) / h) :=
        mul_le_mul_of_nonneg_left
          (le_trans (min_le_right _ _) (min_le_left _ _)) hh.le
    _ = a4Height - pdfMargin * 2 := by field_simp
    _ = 769.89 := a4_maxHeight

/-- Claim C7: for every source image with positive width and height, the
layout the page fitter computes on the A4 page consists of non-negative
numbers, stays inside the page (`x + drawWidth ≤ pageWidth`,
`y + drawHeight ≤ pageHeight`), and preserves the aspect ratio exactly:
`drawWidth / drawHeight = sourceWidth / sourceHeight`. -/
theorem fit_layout_invariant (w h : ℚ) (hw : 0 < w) (hh : 0 < h) :
    0 ≤ (fit a4Width a4Height pdfMargin w h).x ∧
    0 ≤ (fit a4Width a4Height pdfMargin w h).y ∧
    0 ≤ (fit a4Width a4Height pdfMargin w h).drawWidth ∧
    0 ≤ (fit a4Width a4Height pdfMargin w h).drawHeight ∧
    (fit a4Width a4Height pdfMargin w h).x +
      (fit a4Width a4Height pdfMargin w h).drawWidth ≤ a4Width ∧
    (fit a4Width a4Height pdfMargin w h).y +
      (fit a4Width a4Height pdfMargin w h).drawHeight ≤ a4Height ∧
    (fit a4Width a4Height pdfMargin w h).drawWidth /
      (fit a4Width a4Height pdfMargin w h).drawHeight = w / h := by
  rw [fit_pos_eq a4Width a4Height pdfMargin w h hw.ne' hh.ne']
  have hs0 := fitScale_a4_pos hw hh
  have hws := fitScale_a4_drawWidth_le (h := h) hw
  have hhs := fitScale_a4_drawHeight_le (w := w) hh
  have haw : a4Width = 595.28 := rfl
  have hah : a4Height = 841.89 := rfl
  refine ⟨?_, ?_, ?_, ?_, ?_, ?_, ?_⟩
  · dsimp only
    rw [haw] at hws ⊢
    nlinarith
  · dsimp only
    rw [hah] at hhs ⊢
    nlinarith
  · exact mul_nonneg hw.le hs0.le
  · exact mul_nonneg hh.le hs0.le
  · dsimp only
    rw [haw] at hws ⊢
    nlinarith
  · dsimp only
    rw [hah] at hhs ⊢
    nlinarith
  · dsimp only
    rw [mul_comm w _, mul_comm h _]
    exact mul_div_mul_left w h hs0.ne'

/-- Witness for C7 at the 640 × 180 source of the spec's example. -/
theorem fit_layout_invariant_witness :
    0 ≤ (fit a4Width a4Height pdfMargin 640 180).x ∧
    0 ≤ (fit a4Width a4Height pdfMargin 640 180).y ∧
    0 ≤ (fit a4Width a4Height pdfMargin 640 180).drawWidth ∧
    0 ≤ (fit a4Width a4Height pdfMargin 640 180).drawHeight ∧
    (fit a4Width a4Height pdfMargin 640 180).x +
      (fit a4Width a4Height pdfMargin 640 180).drawWidth ≤ a4Width ∧
    (fit a4Width a4Height pdfMargin 640 180).y +
      (fit a4Width a4Height pdfMargin 640 180).drawHeight ≤ a4Height ∧
    (fit a4Width a4Height pdfMargin 640 180).drawWidth /
      (fit a4Width a4Height pdfMargin 640 180).drawHeight =
        640 / 180 :=
  fit_layout_invariant 640 180 (by norm_num) (by norm_num)

/-- Claim C9: the page fitter never upscales — for positive source
dimensions the scale is at most 1, so `drawWidth ≤ sourceWidth` and
`drawHeight ≤ sourceHeight`; a 100 × 50 source on the A4 page with margin 36
is drawn at its own size, centered. -/
theorem fit_never_upscales (w h : ℚ) (hw : 0 < w) (hh : 0 < h) :
    fitScale (a4Width - pdfMargin * 2) (a4Height - pdfMargin * 2) w h ≤ 1 ∧
    (fit a4Width a4Height pdfMargin w h).drawWidth ≤ w ∧
    (fit a4Width a4Height pdfMargin w h).drawHeight ≤ h ∧
    fit a4Width a4Height pdfMargin 100 50 = ⟨247.64, 395.945, 100, 50⟩ := by
  have hs1 : fitScale (a4Width - pdfMargin * 2) (a4Height - pdfMargin * 2)
      w h ≤ 1 := by
    simp only [fitScale, hw.ne', hh.ne', if_false]
    exact le_trans (min_le_right _ _) (min_le_right _ _)
  refine ⟨hs1, ?_, ?_, ?_⟩
  · rw [fit_pos_eq a4Width a4Height pdfMargin w h hw.ne' hh.ne']
    dsimp only
    have hs1' : min ((a4Width - pdfMargin * 2) / w)
        (min ((a4Height - pdfMargin * 2) / h) 1) ≤ 1 :=
      le_trans (min_le_right _ _) (min_le_right _ _)
    nlinarith
  · rw [fit_pos_eq a4Width a4Height pdfMargin w h hw.ne' hh.ne']
    dsimp only
    have hs1' : min ((a4Width - pdfMargin * 2) / w)
        (min ((a4Height - pdfMargin * 2) / h) 1) ≤ 1 :=
      le_trans (min_le_right _ _) (min_le_right _ _)
    nlinarith
  · simp only [fit, fitScale, a4Width, a4Height, pdfMargin,
      PageLayout.mk.injEq]
    norm_num [min_def]

/-- Witness for C9 at the 100 × 50 source. -/
theorem fit_never_upscales_witness :
    fitScale (a4Width - pdfMargin * 2) (a4Height - pdfMargin * 2)
      100 50 ≤ 1 ∧
    (fit a4Width a4Height pdfMargin 100 50).drawWidth ≤ 100 ∧
    (fit a4Width a4Height pdfMargin 100 50).drawHeight ≤ 50 ∧
    fit a4Width a4Height pdfMargin 100 50 = ⟨247.64, 395.945, 100, 50⟩ :=
  fit_never_upscales 100 50 (by norm_num) (by norm_num)

/-- Counterexample for C6: the source contains no check on the source
dimensions at all — at `sourceWidth = 0` (with `sourceHeight = 180`) the
page-fitting computation does not signal any error; the IEEE-754 infinite
ratio `maxWidth / 0` drops out of the `min` against the cap `1`, and the
code silently produces the zero-width layout
`{x: 297.64, y: 330.945, drawWidth: 0, drawHeight: 180}`. -/
theorem fit_degenerate_cex :
    fit a4Width a4Height pdfMargin 0 180 = ⟨297.64, 330.945, 0, 180⟩ ∧
    (fit a4Width a4Height pdfMargin 0 180).drawWidth = 0 := by
  constructor
  · simp only [fit, fitScale, a4Width, a4Height, pdfMargin,
      PageLayout.mk.injEq]
    norm_num [min_def]
  · simp [fit]

/-- Claim C6 as amended: a call of the page-fitting computation with
`sourceWidth = 0` or `sourceHeight = 0` signals nothing — the code has no
precondition check — and silently produces a zero-sized layout:
`drawWidth = 0` when `sourceWidth = 0` and `drawHeight = 0` when
`sourceHeight = 0` (the fields stay finite, the `min` with 1 absorbing the
infinite ratio, so no NaN/Infinity reaches the layout). -/
theorem fit_degenerate_zero_size (w h : ℚ) :
    (w = 0 → (fit a4Width a4Height pdfMargin w h).drawWidth = 0) ∧
    (h = 0 → (fit a4Width a4Height pdfMargin w h).drawHeight = 0) := by
  constructor
  · rintro rfl
    simp [fit]
  · rintro rfl
    simp [fit]

/-- Witness for the amended C6 at sources 0 × 180 and 640 × 0. -/
theorem fit_degenerate_zero_size_witness :
    (fit a4Width a4Height pdfMargin 0 180).drawWidth = 0 ∧
    (fit a4Width a4Height pdfMargin 640 0).drawHeight = 0 :=
  ⟨(fit_degenerate_zero_size 0 180).1 rfl,
    (fit_degenerate_zero_size 640 0).2 rfl⟩

/-- Counterexample for C8: at the spec's own example
`fit(595.28, 841.89, 36, 640, 180)` the computed values are
`drawHeight = 147.1725` and `y = 347.35875`, which differ from the claimed
`147.17` and `347.36` by `0.0025` and `0.00125` — more than the claimed
tolerance `1e-3` — so the conjunction "each within tolerance 1e-3" fails. -/
theorem fit_example_tolerance_cex :
    ¬(|(fit a4Width a4Height pdfMargin 640 180).drawWidth - 523.28| ≤
        1 / 1000 ∧
      |(fit a4Width a4Height pdfMargin 640 180).drawHeight - 147.17| ≤
        1 / 1000 ∧
      |(fit a4Width a4Height pdfMargin 640 180).x - 36| ≤ 1 / 1000 ∧
      |(fit a4Width a4Height pdfMargin 640 180).y - 347.36| ≤ 1 / 1000) := by
  intro hcl
  have hdh := hcl.2.1
  revert hdh
  simp only [fit, fitScale, a4Width, a4Height, pdfMargin]
  norm_num [min_def, abs_le]

/-- Claim C8 as amended: fit computes exactly
`maxWidth = pageWidth - 2*margin`, `maxHeight = pageHeight - 2*margin`,
`scale = min(maxWidth/sourceWidth, maxHeight/sourceHeight, 1)`,
`drawWidth = sourceWidth*scale`, `drawHeight = sourceHeight*scale`,
`x = (pageWidth - drawWidth)/2`, `y = (pageHeight - drawHeight)/2`;
`fit(595.28, 841.89, 36, 640, 180)` yields `drawWidth = 523.28` and
`x = 36` exactly (well within 1e-3), while `drawHeight = 147.1725` and
`y = 347.35875` exactly — within 3e-3 of the rounded 147.17 and within
2e-3 of the rounded 347.36, but not within 1e-3. -/
theorem fit_formula_and_example (pw ph m w h : ℚ)
    (hw : 0 < w) (hh : 0 < h) :
    fit pw ph m w h =
      ⟨(pw - w * min ((pw - 2 * m) / w) (min ((ph - 2 * m) / h) 1)) / 2,
        (ph - h * min ((pw - 2 * m) / w) (min ((ph - 2 * m) / h) 1)) / 2,
        w * min ((pw - 2 * m) / w) (min ((ph - 2 * m) / h) 1),
        h * min ((pw - 2 * m) / w) (min ((ph - 2 * m) / h) 1)⟩ ∧
    fit a4Width a4Height pdfMargin 640 180 =
      ⟨36, 347.35875, 523.28, 147.1725⟩ ∧
    |(fit a4Width a4Height pdfMargin 640 180).drawWidth - 523.28| ≤
      1 / 1000 ∧
    |(fit a4Width a4Height pdfMargin 640 180).x - 36| ≤ 1 / 1000 ∧
    |(fit a4Width a4Height pdfMargin 640 180).drawHeight - 147.17| ≤
      3 / 1000 ∧
    |(fit a4Width a4Height pdfMargin 640 180).y - 347.36| ≤ 2 / 1000 := by
  refine ⟨?_, ?_, ?_, ?_, ?_, ?_⟩
  · rw [fit_pos_eq pw ph m w h hw.ne' hh.ne',
      show pw - m * 2 = pw - 2 * m from by ring,
      show ph - m * 2 = ph - 2 * m from by ring]
  all_goals
    simp only [fit, fitScale, a4Width, a4Height, pdfMargin,
      PageLayout.mk.injEq]
    norm_num [min_def, abs_le]

/-- Witness for the amended C8 at the spec's example input. -/
theorem fit_formula_and_example_witness :
    fit a4Width a4Height pdfMargin 640 180 =
      ⟨(a4Width - 640 * min ((a4Width - 2 * pdfMargin) / 640)
          (min ((a4Height - 2 * pdfMargin) / 180) 1)) / 2,
        (a4Height - 180 * min ((a4Width - 2 * pdfMargin) / 640)
          (min ((a4Height - 2 * pdfMargin) / 180) 1)) / 2,
        640 * min ((a4Width - 2 * pdfMargin) / 640)
          (min ((a4Height - 2 * pdfMargin) / 180) 1),
        180 * min ((a4Width - 2 * pdfMargin) / 640)
          (min ((a4Height - 2 * pdfMargin) / 180) 1)⟩ ∧
    fit a4Width a4Height pdfMargin 640 180 =
      ⟨36, 347.35875, 523.28, 147.1725⟩ ∧
    |(fit a4Width a4Height pdfMargin 640 180).drawWidth - 523.28| ≤
      1 / 1000 ∧
    |(fit a4Width a4Height pdfMargin 640 180).x - 36| ≤ 1 / 1000 ∧
    |(fit a4Width a4Height pdfMargin 640 180).drawHeight - 147.17| ≤
      3 / 1000 ∧
    |(fit a4Width a4Height pdfMargin 640 180).y - 347.36| ≤ 2 / 1000 :=
  fit_formula_and_example a4Width a4Height pdfMargin 640 180
    (by norm_num) (by norm_num)

end BarcodeGenerator
